import Mathlib

/-!
Shallow embedding of the DICE CLI (`src/main.rs`).

The program is a command-line client that dispatches to one of several
actions (create runtime, create input artifact, create project, create
job, create job execution, get job execution, download output artifacts).
Every side effect of the program — spawning a shell command, calling the
remote SDK, issuing an HTTP PUT/GET, touching the file system, printing —
is recorded as an `Event` in an execution trace.  Remote-service answers,
file-system outcomes and command outcomes are supplied by an oracle
environment `Env`, since all domain logic lives in the external service.
A Rust `panic!` / `.expect` / `.unwrap` failure is modelled as an
`Except.error` result that cuts the rest of the computation.

Concurrency note: `download_output_artifacts` spawns one task per
artifact and then awaits them all.  Each task's own trace is recorded
in spawn order (the interleaving of concurrent tasks is abstracted);
the await loop itself contributes no events of its own, mirroring
the source's `for handler in task_handles { handler.await.expect(..) }`.
-/

namespace DiceCli

/-- Status of a job execution, from the external SDK
(`rust_sdk::model::job_execution::Status`); the CLI only ever compares
against `Completed`, so the other constructors stand for any
not-completed status. -/
inductive JobExecutionStatus
  | Pending
  | Running
  | Completed
  | Failed
  deriving DecidableEq, Repr

/-- Status of a runtime (`rust_sdk::model::runtime::Status`); the CLI only
uses `Active`. -/
inductive RuntimeStatus
  | Active
  | Inactive
  deriving DecidableEq, Repr

/-- Status of an artifact (`rust_sdk::model::artifact::Status`); the CLI
uses `Active` both to activate uploads and to filter the listing. -/
inductive ArtifactStatus
  | Active
  | Inactive
  deriving DecidableEq, Repr

/-- A job execution record as returned by
`rust_sdk::api::job_execution::get` (only the fields the CLI reads). -/
structure JobExecution where
  id : String
  status : JobExecutionStatus
  deriving DecidableEq, Repr

/-- Response of the SDK `create` calls that hand back an upload link
(`rust_sdk::api::runtime::create`, `rust_sdk::api::artifact::create`):
an entity id and a presigned URI. -/
structure CreateResponse where
  id : String
  uri : String
  deriving DecidableEq, Repr

/-- One observable side effect of the program. -/
inductive Event
  /-- `Command::new(program).arg(..)...status()` — a spawned shell command. -/
  | cmd (program : String) (args : List String)
  /-- `rust_sdk::api::job_execution::get(id)`. -/
  | apiJobExecutionGet (job_execution_id : String)
  /-- `rust_sdk::api::runtime::create(CreateRuntimeDTO { name, project_id, .. })`. -/
  | apiRuntimeCreate (name : String) (project_id : String)
  /-- `rust_sdk::api::runtime::update(id, UpdateRuntimeDTO { status })`. -/
  | apiRuntimeUpdate (id : String) (status : RuntimeStatus)
  /-- `rust_sdk::api::artifact::create(CreateArtifactDTO { entity_id, .. })`
  (entity type `Project`, artifact type `Input`). -/
  | apiArtifactCreate (entity_id : String)
  /-- `rust_sdk::api::artifact::update(id, UpdateArtifactDTO { status })`. -/
  | apiArtifactUpdate (id : String) (status : ArtifactStatus)
  /-- `rust_sdk::api::artifact::list(doc!{..})` filtered to output artifacts of
  the given entity id with status `Active`. -/
  | apiArtifactList (entity_id : String)
  /-- `rust_sdk::api::artifact::download(artifact_id)`. -/
  | apiArtifactDownload (artifact_id : String)
  /-- `rust_sdk::api::project::create(CreateProjectDTO { description, .. })`. -/
  | apiProjectCreate (description : String)
  /-- `rust_sdk::api::job::create(CreateJobDTO { .. })`. -/
  | apiJobCreate (project_id : String) (runtime_id : String)
      (input_artifact_ids : List String)
  /-- `rust_sdk::api::job_execution::create(CreateJobExecutionDTO { job_id, .. })`. -/
  | apiJobExecutionCreate (job_id : String)
  /-- `reqwest::Client::new().put(uri).body(..).send()`. -/
  | httpPut (uri : String)
  /-- `reqwest::get(uri)`. -/
  | httpGet (uri : String)
  /-- `File::open(path)`. -/
  | fsOpen (path : String)
  /-- `File::create(path)`. -/
  | fsCreateFile (path : String)
  /-- `fs::create_dir_all(path)`. -/
  | fsCreateDirAll (path : String)
  /-- `env::set_current_dir(path)`. -/
  | fsSetCurrentDir (path : String)
  /-- `println!`. -/
  | printLine (s : String)
  deriving DecidableEq, Repr

/-- Oracle environment: answers of the remote SDK and of every fallible
local operation.  The CLI owns no domain logic, so responses are opaque
functions of the request. -/
structure Env where
  /-- Record returned by `rust_sdk::api::job_execution::get`. -/
  jobExecutionGet : String → JobExecution
  /-- Response of `rust_sdk::api::runtime::create` (name, project_id). -/
  runtimeCreate : String → String → CreateResponse
  /-- Response of `rust_sdk::api::artifact::create` keyed by entity id. -/
  artifactCreate : String → CreateResponse
  /-- Artifact ids returned by `rust_sdk::api::artifact::list` for an entity id. -/
  artifactList : String → List String
  /-- Download URI returned by `rust_sdk::api::artifact::download`. -/
  artifactDownloadUri : String → String
  /-- Id returned by `rust_sdk::api::project::create`. -/
  projectCreate : String → String
  /-- Id returned by `rust_sdk::api::job::create`. -/
  jobCreate : String → String → List String → String
  /-- Id returned by `rust_sdk::api::job_execution::create`. -/
  jobExecutionCreate : String → String
  /-- Whether `Command::new(p).args(a).status()` returns `Ok`. -/
  cmdStatusOk : String → List String → Bool
  /-- Whether the `reqwest` PUT `send()` to this URI returns `Ok`. -/
  putOk : String → Bool
  /-- Error message of a failed PUT to this URI. -/
  putErr : String → String
  /-- Whether `reqwest::get(uri)` returns `Ok`. -/
  getOk : String → Bool
  /-- Whether `response.bytes()` for this URI returns `Ok`. -/
  bytesOk : String → Bool
  /-- Whether `File::open(path)` returns `Ok`. -/
  fileOpenOk : String → Bool
  /-- Whether `file.read_to_end(..)` on this path returns `Ok`. -/
  fileReadOk : String → Bool
  /-- Whether `File::create(path)` returns `Ok`. -/
  fileCreateOk : String → Bool
  /-- Whether `std::io::copy` into this path returns `Ok`. -/
  copyOk : String → Bool
  /-- Whether `fs::create_dir_all(path)` returns `Ok`. -/
  createDirOk : String → Bool
  /-- Whether `env::set_current_dir(path)` returns `Ok`. -/
  setCurrentDirOk : String → Bool
  /-- `fs::read_dir(root)`: `none` models an `Err` from `read_dir` or from
  iterating its entries; `some paths` the listed entry paths. -/
  dirEntries : String → Option (List String)
  /-- File name of the current directory (`get_current_dir`). -/
  currentDirName : String

/-- Effect computation: the trace of events performed plus either a value
or the message of the Rust panic that aborted the run. -/
structure M (α : Type) where
  trace : List Event
  result : Except String α
  deriving Repr

/-- `pure` for `M`: no events, value returned. -/
def M.pure {α : Type} (a : α) : M α := ⟨[], Except.ok a⟩

/-- Sequencing for `M`: a panic cuts the rest of the computation; the
traces of both halves concatenate otherwise. -/
def M.bind {α β : Type} (x : M α) (f : α → M β) : M β :=
  match x.result with
  | Except.ok a => ⟨x.trace ++ (f a).trace, (f a).result⟩
  | Except.error e => ⟨x.trace, Except.error e⟩

instance : Monad M where
  pure := M.pure
  bind := M.bind

/-- Perform one observable effect. -/
def emit (e : Event) : M Unit := ⟨[e], Except.ok ()⟩

/-- A Rust `panic!(msg)`. -/
def abortWith {α : Type} (msg : String) : M α := ⟨[], Except.error msg⟩

/-- Rust `.expect(msg)` / `.unwrap()` on a result whose success is `ok`. -/
def expectOk (ok : Bool) (msg : String) : M Unit :=
  if ok then ⟨[], Except.ok ()⟩ else ⟨[], Except.error msg⟩

/-- Rust `Option::expect(msg)`. -/
def expectSome {α : Type} (o : Option α) (msg : String) : M α :=
  match o with
  | some a => ⟨[], Except.ok a⟩
  | none => ⟨[], Except.error msg⟩

/-- `Command::new(program).arg(..)...status().expect(msg)`: the command is
spawned (event emitted) and the `Result` returned by `.status()` is
unwrapped.  The exit code itself is never inspected by the CLI. -/
def runCommand (env : Env) (program : String) (args : List String)
    (msg : String) : M Unit := do
  emit (Event.cmd program args)
  expectOk (env.cmdStatusOk program args) msg

/-- Rust `str::contains` with a string pattern: `pat` occurs as a
contiguous substring.  Recursion on the haystack, testing a prefix match
at every position. -/
def containsSubList (pat : List Char) : List Char → Bool
  | [] => pat.isPrefixOf []
  | c :: rest => pat.isPrefixOf (c :: rest) || containsSubList pat rest

/-- Rust `hay.contains(pat)` on strings. -/
def rustContains (hay pat : String) : Bool :=
  containsSubList pat.toList hay.toList

/-- `list_files_in_dir(root)`: the `io::Result<Vec<PathBuf>>` of listing a
directory, as answered by the oracle. -/
def list_files_in_dir (env : Env) (root : String) : Option (List String) :=
  env.dirEntries root

/-- `is_directory_dice_runtime(root)`: fold over the listed paths with a
mutable flag that is set when a path contains `".dice"`; an `Err` from
listing leaves the flag `false`. -/
def is_directory_dice_runtime (env : Env) (root : String) : Bool :=
  match list_files_in_dir env root with
  | some files =>
      files.foldl (fun result path =>
        if rustContains path ".dice" then true else result) false
  | none => false

/-- `create_runtime(name, project_id)`. -/
def create_runtime (env : Env) (name project_id : String) : M Unit :=
  if is_directory_dice_runtime env "." then do
    emit (Event.printLine "Validated located in DICE runtime")
    runCommand env "make" ["clean"] "Could not clean runtime"
    runCommand env "make" ["build"] "Could not build runtime"
    emit (Event.printLine "Runtime build completed")
    emit (Event.apiRuntimeCreate name project_id)
    let create_runtime_response := env.runtimeCreate name project_id
    let runtime_file :=
      "target/wasm32-wasi/release/" ++ env.currentDirName ++ ".tar"
    emit (Event.fsOpen runtime_file)
    expectOk (env.fileOpenOk runtime_file) "Could not open runtime file"
    expectOk (env.fileReadOk runtime_file) "Could not read runtime file"
    emit (Event.httpPut create_runtime_response.uri)
    if env.putOk create_runtime_response.uri then do
      emit (Event.printLine "Successfully uploaded runtime")
      emit (Event.apiRuntimeUpdate create_runtime_response.id
        RuntimeStatus.Active)
      emit (Event.printLine
        ("Created runtime: " ++ create_runtime_response.id))
    else
      emit (Event.printLine ("Could not upload runtime: " ++
        env.putErr create_runtime_response.uri))
  else
    emit (Event.printLine "NOT IN A DICE RUNTIME")

/-- `create_input_artifact(project_id, file_name)`. -/
def create_input_artifact (env : Env) (project_id file_name : String) :
    M Unit := do
  let tar_file_name := file_name ++ ".tar"
  runCommand env "tar" ["-czf", tar_file_name, file_name]
    "Could not tar the input artifact"
  emit (Event.apiArtifactCreate project_id)
  let create_artifact_response := env.artifactCreate project_id
  emit (Event.fsOpen tar_file_name)
  expectOk (env.fileOpenOk tar_file_name) "Could not open tar file"
  expectOk (env.fileReadOk tar_file_name) "Could not read tar file"
  emit (Event.httpPut create_artifact_response.uri)
  if env.putOk create_artifact_response.uri then do
    emit (Event.printLine "Successfully uploaded input artifact")
    runCommand env "rm" [tar_file_name] "Could not delete tar file"
    emit (Event.apiArtifactUpdate create_artifact_response.id
      ArtifactStatus.Active)
    emit (Event.printLine
      ("Created input artifact: " ++ create_artifact_response.id))
  else
    emit (Event.printLine ("Could not upload input artifact: " ++
      env.putErr create_artifact_response.uri))

/-- `create_project(description)`. -/
def create_project (env : Env) (description : String) : M Unit := do
  emit (Event.apiProjectCreate description)
  emit (Event.printLine
    ("Created project: " ++ env.projectCreate description))

/-- `create_job(project_id, runtime_id, input_artifact_ids)`. -/
def create_job (env : Env) (project_id runtime_id : String)
    (input_artifact_ids : List String) : M Unit := do
  emit (Event.apiJobCreate project_id runtime_id input_artifact_ids)
  emit (Event.printLine ("Created job: " ++
    env.jobCreate project_id runtime_id input_artifact_ids))

/-- `create_job_execution(job_id)`. -/
def create_job_execution (env : Env) (job_id : String) : M Unit := do
  emit (Event.apiJobExecutionCreate job_id)
  emit (Event.printLine ("Created job execution: " ++
    env.jobExecutionCreate job_id))

/-- `get_job_execution(job_execution_id)`; the `{:?}` debug print is
abbreviated to the record's id. -/
def get_job_execution (env : Env) (job_execution_id : String) : M Unit := do
  emit (Event.apiJobExecutionGet job_execution_id)
  emit (Event.printLine
    ("Job execution: " ++ (env.jobExecutionGet job_execution_id).id))

/-- Body of one task spawned by `download_output_artifacts` for one
artifact: download the bytes, write them to `<artifact id>.tar`, untar,
delete the tar file. -/
def artifactTask (env : Env) (artifact_id : String) : M Unit := do
  let tar_file_path := artifact_id ++ ".tar"
  emit (Event.apiArtifactDownload artifact_id)
  let uri := env.artifactDownloadUri artifact_id
  emit (Event.httpGet uri)
  expectOk (env.getOk uri) "called unwrap on an Err value from reqwest get"
  emit (Event.fsCreateFile tar_file_path)
  expectOk (env.fileCreateOk tar_file_path)
    "called unwrap on an Err value from File create"
  expectOk (env.bytesOk uri) "called unwrap on an Err value from bytes"
  expectOk (env.copyOk tar_file_path) "Could not copy artifact to file"
  runCommand env "tar" ["-xvf", tar_file_path]
    "Could not untar the output artifact"
  runCommand env "rm" [tar_file_path] "Could not delete tar file"

/-- `artifacts.into_iter().map(|artifact| tokio::spawn(..))`: one task per
listed artifact, in listing order. -/
def spawnedTasks (env : Env) (artifact_ids : List String) : List (M Unit) :=
  artifact_ids.map (artifactTask env)

/-- `for handler in task_handles { handler.await.expect("Could not upload
ouput artifact") }`: await each handle in order; the first handle whose
task panicked makes the `.expect` panic, skipping the remaining awaits. -/
def joinTasks : List (M Unit) → Except String Unit
  | [] => Except.ok ()
  | t :: rest =>
    match t.result with
    | Except.ok _ => joinTasks rest
    | Except.error _ => Except.error "Could not upload ouput artifact"

/-- How many handles the await loop actually awaits before returning or
panicking. -/
def awaitedHandles : List (M Unit) → Nat
  | [] => 0
  | t :: rest =>
    match t.result with
    | Except.ok _ => awaitedHandles rest + 1
    | Except.error _ => 1

/-- `download_output_artifacts(job_execution_id)`.  The spawned tasks run
to completion on their own (their traces are recorded in spawn order);
the await loop only turns the first task failure into a panic and adds
no events. -/
def download_output_artifacts (env : Env) (job_execution_id : String) :
    M Unit := do
  emit (Event.apiJobExecutionGet job_execution_id)
  let job_execution := env.jobExecutionGet job_execution_id
  if job_execution.status ≠ JobExecutionStatus.Completed then
    abortWith "Cannot download artifacts for a job that has not yet been completed"
  else do
    let job_root_path := job_execution.id
    emit (Event.fsCreateDirAll job_root_path)
    expectOk (env.createDirOk job_root_path)
      "Could not create job output directory"
    emit (Event.fsSetCurrentDir job_root_path)
    expectOk (env.setCurrentDirOk job_root_path)
      "Could not change directories"
    emit (Event.apiArtifactList job_execution.id)
    let artifacts := env.artifactList job_execution.id
    let task_handles := spawnedTasks env artifacts
    ⟨(task_handles.map M.trace).flatten, joinTasks task_handles⟩

/-- The mutually exclusive CLI actions. -/
inductive Action
  | createRuntime
  | createInputArtifact
  | createProject
  | createJob
  | createJobExecution
  | getJobExecution
  | downloadOutputArtifacts
  deriving DecidableEq, Repr

/-- The parsed `clap` argument struct.  `list_notifications` is declared
as a flag but never read by `main`. -/
structure Arguments where
  create_runtime : Bool
  create_input_artifact : Bool
  create_project : Bool
  create_job : Bool
  create_job_execution : Bool
  get_job_execution : Bool
  list_notifications : Bool
  download_output_artifacts : Bool
  name : Option String
  description : Option String
  project_id : Option String
  job_id : Option String
  job_execution_id : Option String
  runtime_id : Option String
  input_artifact_ids : Option (List String)
  file : Option String
  deriving Repr

/-- The action branch taken by `main`'s `if`/`else if` chain, as a list
(empty when no flag matches). -/
def selectedActions (args : Arguments) : List Action :=
  if args.create_runtime then [Action.createRuntime]
  else if args.create_input_artifact then [Action.createInputArtifact]
  else if args.create_project then [Action.createProject]
  else if args.create_job then [Action.createJob]
  else if args.create_job_execution then [Action.createJobExecution]
  else if args.get_job_execution then [Action.getJobExecution]
  else if args.download_output_artifacts then [Action.downloadOutputArtifacts]
  else []

/-- `main`: dispatch on the flags, unwrapping the options each action
needs (in the source's evaluation order) and running the action. -/
def mainRun (env : Env) (args : Arguments) : M Unit :=
  if args.create_runtime then do
    let n ← expectSome args.name "--name required"
    let p ← expectSome args.project_id "--project-id required"
    create_runtime env n p
  else if args.create_input_artifact then do
    let p ← expectSome args.project_id "--project-id required"
    let f ← expectSome args.file "--file required"
    create_input_artifact env p f
  else if args.create_project then do
    let d ← expectSome args.description "--description required"
    create_project env d
  else if args.create_job then do
    let p ← expectSome args.project_id "--project-id required"
    let r ← expectSome args.runtime_id "--runtime-id required"
    let i ← expectSome args.input_artifact_ids "--input-artifact-ids required"
    create_job env p r i
  else if args.create_job_execution then do
    let j ← expectSome args.job_id "--job-id required"
    create_job_execution env j
  else if args.get_job_execution then do
    let j ← expectSome args.job_execution_id "--job-execution-id required"
    get_job_execution env j
  else if args.download_output_artifacts then do
    let j ← expectSome args.job_execution_id "--job-execution-id required"
    download_output_artifacts env j
  else
    M.pure ()

/-- Recognizes an HTTP PUT event. -/
def isPutEvent : Event → Bool
  | Event.httpPut _ => true
  | _ => false

/-- Recognizes an HTTP GET event. -/
def isGetEvent : Event → Bool
  | Event.httpGet _ => true
  | _ => false

/-- Recognizes a change of the current working directory. -/
def isSetCurrentDirEvent : Event → Bool
  | Event.fsSetCurrentDir _ => true
  | _ => false

/-- A fully successful oracle, used to instantiate theorems at concrete
inputs. -/
def okEnv : Env where
  jobExecutionGet := fun j => ⟨j, JobExecutionStatus.Completed⟩
  runtimeCreate := fun _ _ => ⟨"rt1", "put-rt"⟩
  artifactCreate := fun _ => ⟨"art1", "put-art"⟩
  artifactList := fun _ => ["a1", "a2"]
  artifactDownloadUri := fun a => "get-" ++ a
  projectCreate := fun _ => "proj1"
  jobCreate := fun _ _ _ => "job1"
  jobExecutionCreate := fun _ => "je1"
  cmdStatusOk := fun _ _ => true
  putOk := fun _ => true
  putErr := fun _ => "err"
  getOk := fun _ => true
  bytesOk := fun _ => true
  fileOpenOk := fun _ => true
  fileReadOk := fun _ => true
  fileCreateOk := fun _ => true
  copyOk := fun _ => true
  createDirOk := fun _ => true
  setCurrentDirOk := fun _ => true
  dirEntries := fun _ => some ["./x.dicey"]
  currentDirName := "myrt"

/-- Oracle whose job execution records are still `Pending`. -/
def pendingEnv : Env :=
  { okEnv with jobExecutionGet := fun j => ⟨j, JobExecutionStatus.Pending⟩ }

/-- Oracle whose directory listing fails. -/
def noDiceEnv : Env :=
  { okEnv with dirEntries := fun _ => none }

/-- Oracle whose HTTP GETs all fail, so every download task panics. -/
def failGetEnv : Env :=
  { okEnv with getOk := fun _ => false }

/-- Concrete parsed arguments with only `list_notifications` set. -/
def notifOnlyArgs : Arguments where
  create_runtime := false
  create_input_artifact := false
  create_project := false
  create_job := false
  create_job_execution := false
  get_job_execution := false
  list_notifications := true
  download_output_artifacts := false
  name := none
  description := none
  project_id := none
  job_id := none
  job_execution_id := none
  runtime_id := none
  input_artifact_ids := none
  file := none

/-! Helper lemmas. -/

theorem M.bind_eq {α β : Type} (x : M α) (f : α → M β) :
    x >>= f = M.bind x f := rfl

theorem M.pure_eq {α : Type} (a : α) : (Pure.pure a : M α) = M.pure a := rfl

/-- The for-each flag loop of `is_directory_dice_runtime` computes `any`. -/
theorem foldl_flag_eq_any (q : String → Bool) (files : List String)
    (b : Bool) :
    files.foldl (fun result path => if q path then true else result) b
      = (b || files.any q) := by
  induction files generalizing b with
  | nil => simp
  | cons p rest ih =>
    rw [List.foldl_cons, ih, List.any_cons]
    cases q p <;> simp

/-- `containsSubList` decides the contiguous-substring relation. -/
theorem containsSubList_iff_infix (pat l : List Char) :
    containsSubList pat l = true ↔ pat <:+: l := by
  induction l with
  | nil =>
    simp [containsSubList, List.isPrefixOf_iff_prefix]
  | cons c rest ih =>
    rw [List.infix_cons_iff, containsSubList]
    simp [List.isPrefixOf_iff_prefix, ih]

/-- Trace of one download task when every local operation succeeds. -/
theorem artifactTask_trace_ok (env : Env) (a : String)
    (h1 : env.getOk (env.artifactDownloadUri a) = true)
    (h2 : env.fileCreateOk (a ++ ".tar") = true)
    (h3 : env.bytesOk (env.artifactDownloadUri a) = true)
    (h4 : env.copyOk (a ++ ".tar") = true)
    (h5 : env.cmdStatusOk "tar" ["-xvf", a ++ ".tar"] = true)
    (h6 : env.cmdStatusOk "rm" [a ++ ".tar"] = true) :
    (artifactTask env a).trace =
      [Event.apiArtifactDownload a,
       Event.httpGet (env.artifactDownloadUri a),
       Event.fsCreateFile (a ++ ".tar"),
       Event.cmd "tar" ["-xvf", a ++ ".tar"],
       Event.cmd "rm" [a ++ ".tar"]] ∧
    (artifactTask env a).result = Except.ok () := by
  simp [artifactTask, runCommand, M.bind_eq, M.bind, emit, expectOk,
    h1, h2, h3, h4, h5, h6]

/-- The await loop awaits every handle and succeeds when every task
succeeded. -/
theorem joinTasks_all_ok (ts : List (M Unit))
    (h : ∀ t ∈ ts, t.result = Except.ok ()) :
    joinTasks ts = Except.ok () ∧ awaitedHandles ts = ts.length := by
  induction ts with
  | nil => simp [joinTasks, awaitedHandles]
  | cons t rest ih =>
    have ht := h t (List.mem_cons_self t rest)
    have ihr := ih (fun x hx => h x (List.mem_cons_of_mem t hx))
    simp [joinTasks, awaitedHandles, ht, ihr.1, ihr.2]

/-- Shape of a completed-status `download_output_artifacts` run: the
parent's four events followed by the spawned tasks' traces in spawn
order; the await loop contributes no events, only the result. -/
theorem download_completed_shape (env : Env) (jid : String)
    (hc : (env.jobExecutionGet jid).status = JobExecutionStatus.Completed)
    (hdir : env.createDirOk (env.jobExecutionGet jid).id = true)
    (hcd : env.setCurrentDirOk (env.jobExecutionGet jid).id = true) :
    (download_output_artifacts env jid).trace =
      [Event.apiJobExecutionGet jid,
       Event.fsCreateDirAll (env.jobExecutionGet jid).id,
       Event.fsSetCurrentDir (env.jobExecutionGet jid).id,
       Event.apiArtifactList (env.jobExecutionGet jid).id] ++
      ((spawnedTasks env
          (env.artifactList (env.jobExecutionGet jid).id)).map
        M.trace).flatten ∧
    (download_output_artifacts env jid).result =
      joinTasks (spawnedTasks env
        (env.artifactList (env.jobExecutionGet jid).id)) := by
  constructor <;>
    simp [download_output_artifacts, M.bind_eq, M.bind, emit, expectOk,
      abortWith, hc, hdir, hcd]

/-- The await loop stops at the first failed handle it awaits and turns
the failure into its own panic message. -/
theorem joinTasks_first_failure (pre post : List (M Unit)) (t : M Unit)
    (e : String)
    (hpre : ∀ x ∈ pre, x.result = Except.ok ())
    (ht : t.result = Except.error e) :
    joinTasks (pre ++ t :: post) =
      Except.error "Could not upload ouput artifact" ∧
    awaitedHandles (pre ++ t :: post) = pre.length + 1 := by
  induction pre with
  | nil => simp [joinTasks, awaitedHandles, ht]
  | cons x rest ih =>
    have hx := hpre x (List.mem_cons_self x rest)
    have ihr := ih (fun y hy => hpre y (List.mem_cons_of_mem x hy))
    simp [joinTasks, awaitedHandles, hx, ihr.1, ihr.2]

/-- A download task never changes the working directory, whatever the
oracle answers. -/
theorem artifactTask_no_chdir (env : Env) (a : String) :
    (artifactTask env a).trace.countP isSetCurrentDirEvent = 0 := by
  cases h1 : env.getOk (env.artifactDownloadUri a) <;>
  cases h2 : env.fileCreateOk (a ++ ".tar") <;>
  cases h3 : env.bytesOk (env.artifactDownloadUri a) <;>
  cases h4 : env.copyOk (a ++ ".tar") <;>
  cases h5 : env.cmdStatusOk "tar" ["-xvf", a ++ ".tar"] <;>
  cases h6 : env.cmdStatusOk "rm" [a ++ ".tar"] <;>
  simp [artifactTask, runCommand, M.bind_eq, M.bind, emit, expectOk,
    isSetCurrentDirEvent, h1, h2, h3, h4, h5, h6]

/-- A concatenation of traces none of which matches `p` has count zero. -/
theorem countP_flatten_zero (p : Event → Bool) (ts : List (List Event))
    (h : ∀ t ∈ ts, t.countP p = 0) : ts.flatten.countP p = 0 := by
  induction ts with
  | nil => simp
  | cons t rest ih =>
    rw [List.flatten_cons, List.countP_append,
      h t (List.mem_cons_self t rest),
      ih (fun x hx => h x (List.mem_cons_of_mem t hx))]

/-- A concatenation of traces each matching `p` at most once has count at
most the number of traces. -/
theorem countP_flatten_le_length (p : Event → Bool) (ts : List (List Event))
    (h : ∀ t ∈ ts, t.countP p ≤ 1) : ts.flatten.countP p ≤ ts.length := by
  induction ts with
  | nil => simp
  | cons t rest ih =>
    rw [List.flatten_cons, List.countP_append, List.length_cons]
    have h1 := h t (List.mem_cons_self t rest)
    have h2 := ih (fun x hx => h x (List.mem_cons_of_mem t hx))
    omega

/-- Shape of a not-completed-status `download_output_artifacts` run: the
fetch, then the panic. -/
theorem download_not_completed_shape (env : Env) (jid : String)
    (h : (env.jobExecutionGet jid).status ≠ JobExecutionStatus.Completed) :
    (download_output_artifacts env jid).trace =
      [Event.apiJobExecutionGet jid] ∧
    (download_output_artifacts env jid).result =
      Except.error
        "Cannot download artifacts for a job that has not yet been completed" := by
  simp [download_output_artifacts, M.bind_eq, M.bind, emit, abortWith, h]

/-- `create_runtime` issues at most one HTTP PUT on every oracle. -/
theorem create_runtime_put_le_one (env : Env) (name pid : String) :
    (create_runtime env name pid).trace.countP isPutEvent ≤ 1 := by
  by_cases hd : is_directory_dice_runtime env "." = true
  · cases h1 : env.cmdStatusOk "make" ["clean"] <;>
    cases h2 : env.cmdStatusOk "make" ["build"] <;>
    cases h3 : env.fileOpenOk
      ("target/wasm32-wasi/release/" ++ env.currentDirName ++ ".tar") <;>
    cases h4 : env.fileReadOk
      ("target/wasm32-wasi/release/" ++ env.currentDirName ++ ".tar") <;>
    cases h5 : env.putOk (env.runtimeCreate name pid).uri <;>
    simp [create_runtime, runCommand, M.bind_eq, M.bind, emit, expectOk,
      isPutEvent, hd, h1, h2, h3, h4, h5]
  · simp [create_runtime, hd, emit, isPutEvent]

/-- `create_input_artifact` issues at most one HTTP PUT on every oracle. -/
theorem create_input_artifact_put_le_one (env : Env) (pid f : String) :
    (create_input_artifact env pid f).trace.countP isPutEvent ≤ 1 := by
  cases h1 : env.cmdStatusOk "tar" ["-czf", f ++ ".tar", f] <;>
  cases h2 : env.fileOpenOk (f ++ ".tar") <;>
  cases h3 : env.fileReadOk (f ++ ".tar") <;>
  cases h4 : env.putOk (env.artifactCreate pid).uri <;>
  cases h5 : env.cmdStatusOk "rm" [f ++ ".tar"] <;>
  simp [create_input_artifact, runCommand, M.bind_eq, M.bind, emit,
    expectOk, isPutEvent, h1, h2, h3, h4, h5]

/-- One download task issues at most one HTTP GET on every oracle. -/
theorem artifactTask_get_le_one (env : Env) (a : String) :
    (artifactTask env a).trace.countP isGetEvent ≤ 1 := by
  cases h1 : env.getOk (env.artifactDownloadUri a) <;>
  cases h2 : env.fileCreateOk (a ++ ".tar") <;>
  cases h3 : env.bytesOk (env.artifactDownloadUri a) <;>
  cases h4 : env.copyOk (a ++ ".tar") <;>
  cases h5 : env.cmdStatusOk "tar" ["-xvf", a ++ ".tar"] <;>
  cases h6 : env.cmdStatusOk "rm" [a ++ ".tar"] <;>
  simp [artifactTask, runCommand, M.bind_eq, M.bind, emit, expectOk,
    isGetEvent, h1, h2, h3, h4, h5, h6]

/-- A whole download run issues at most one HTTP GET per listed
artifact, on every oracle. -/
theorem download_get_le_artifacts (env : Env) (jid : String) :
    (download_output_artifacts env jid).trace.countP isGetEvent ≤
      (env.artifactList (env.jobExecutionGet jid).id).length := by
  by_cases hc :
      (env.jobExecutionGet jid).status = JobExecutionStatus.Completed
  · cases hdir : env.createDirOk (env.jobExecutionGet jid).id with
    | false =>
      simp [download_output_artifacts, M.bind_eq, M.bind, emit, expectOk,
        abortWith, hc, hdir, isGetEvent]
    | true =>
      cases hcd : env.setCurrentDirOk (env.jobExecutionGet jid).id with
      | false =>
        simp [download_output_artifacts, M.bind_eq, M.bind, emit, expectOk,
          abortWith, hc, hdir, hcd, isGetEvent]
      | true =>
        obtain ⟨ht, _⟩ := download_completed_shape env jid hc hdir hcd
        rw [ht, List.countP_append]
        have hflat : (((spawnedTasks env
            (env.artifactList (env.jobExecutionGet jid).id)).map
              M.trace).flatten.countP isGetEvent) ≤
            (env.artifactList (env.jobExecutionGet jid).id).length := by
          have hle := countP_flatten_le_length isGetEvent
            ((spawnedTasks env
              (env.artifactList (env.jobExecutionGet jid).id)).map M.trace)
            (by
              intro t htm
              obtain ⟨x, hxm, rfl⟩ := List.mem_map.mp htm
              obtain ⟨a, _, rfl⟩ := List.mem_map.mp hxm
              exact artifactTask_get_le_one env a)
          simpa [spawnedTasks] using hle
        have hhead : (List.countP isGetEvent
            [Event.apiJobExecutionGet jid,
             Event.fsCreateDirAll (env.jobExecutionGet jid).id,
             Event.fsSetCurrentDir (env.jobExecutionGet jid).id,
             Event.apiArtifactList (env.jobExecutionGet jid).id]) = 0 := by
          simp [isGetEvent]
        omega
  · have h := download_not_completed_shape env jid hc
    rw [h.1]
    simp [isGetEvent]

/-! Claim theorems. -/

/-- C1: when the fetched job execution's status is not `Completed`,
`download_output_artifacts` panics right after the fetch: the trace is
exactly the job-execution fetch, so no output directory is created, the
working directory is not changed and the artifact-list API is never
called. -/
theorem C1_not_completed_aborts_before_any_effect (env : Env) (jid : String)
    (h : (env.jobExecutionGet jid).status ≠ JobExecutionStatus.Completed) :
    (download_output_artifacts env jid).trace = [Event.apiJobExecutionGet jid] ∧
    (download_output_artifacts env jid).result =
      Except.error "Cannot download artifacts for a job that has not yet been completed" := by
  simp [download_output_artifacts, M.bind_eq, M.bind, emit, abortWith, h]

theorem C1_not_completed_witness :
    (pendingEnv.jobExecutionGet "je7").status ≠ JobExecutionStatus.Completed ∧
    (download_output_artifacts pendingEnv "je7").trace =
      [Event.apiJobExecutionGet "je7"] := by
  exact ⟨by decide,
    (C1_not_completed_aborts_before_any_effect pendingEnv "je7" (by decide)).1⟩

/-- C2: `create_input_artifact` on file `F` performs, in order: tar-compress
`F` into `F.tar`, request an upload URI via the artifact create API, PUT
to that URI, delete the local tar, call the artifact update (activate)
API with status `Active` — and on a failed PUT it reaches neither the
delete nor the activate call. -/
theorem C2_create_input_artifact_step_order (env : Env) (pid f : String)
    (htar : env.cmdStatusOk "tar" ["-czf", f ++ ".tar", f] = true)
    (hopen : env.fileOpenOk (f ++ ".tar") = true)
    (hread : env.fileReadOk (f ++ ".tar") = true)
    (hrm : env.cmdStatusOk "rm" [f ++ ".tar"] = true) :
    (env.putOk (env.artifactCreate pid).uri = true →
      (create_input_artifact env pid f).trace =
        [Event.cmd "tar" ["-czf", f ++ ".tar", f],
         Event.apiArtifactCreate pid,
         Event.fsOpen (f ++ ".tar"),
         Event.httpPut (env.artifactCreate pid).uri,
         Event.printLine "Successfully uploaded input artifact",
         Event.cmd "rm" [f ++ ".tar"],
         Event.apiArtifactUpdate (env.artifactCreate pid).id
           ArtifactStatus.Active,
         Event.printLine
           ("Created input artifact: " ++ (env.artifactCreate pid).id)]) ∧
    (env.putOk (env.artifactCreate pid).uri = false →
      (create_input_artifact env pid f).trace =
        [Event.cmd "tar" ["-czf", f ++ ".tar", f],
         Event.apiArtifactCreate pid,
         Event.fsOpen (f ++ ".tar"),
         Event.httpPut (env.artifactCreate pid).uri,
         Event.printLine ("Could not upload input artifact: " ++
           env.putErr (env.artifactCreate pid).uri)]) := by
  constructor <;> intro hput <;>
    simp [create_input_artifact, runCommand, M.bind_eq, M.bind, emit,
      expectOk, htar, hopen, hread, hrm, hput]

theorem C2_create_input_artifact_witness :
    okEnv.putOk (okEnv.artifactCreate "p1").uri = true ∧
    (create_input_artifact okEnv "p1" "data").trace =
      [Event.cmd "tar" ["-czf", "data" ++ ".tar", "data"],
       Event.apiArtifactCreate "p1",
       Event.fsOpen ("data" ++ ".tar"),
       Event.httpPut (okEnv.artifactCreate "p1").uri,
       Event.printLine "Successfully uploaded input artifact",
       Event.cmd "rm" ["data" ++ ".tar"],
       Event.apiArtifactUpdate (okEnv.artifactCreate "p1").id
         ArtifactStatus.Active,
       Event.printLine
         ("Created input artifact: " ++ (okEnv.artifactCreate "p1").id)] := by
  exact ⟨rfl,
    (C2_create_input_artifact_step_order okEnv "p1" "data" rfl rfl rfl rfl).1 rfl⟩

/-- C3: in `download_output_artifacts`, exactly one task is spawned per
listed artifact; within a task the steps run in order — download API,
HTTP GET of the bytes, write to `<artifact id>.tar`, untar, delete the
tar — and the parent awaits every spawned task. -/
theorem C3_one_task_per_artifact_steps_in_order (env : Env)
    (artifact_ids : List String)
    (h : ∀ a : String,
      env.getOk (env.artifactDownloadUri a) = true ∧
      env.fileCreateOk (a ++ ".tar") = true ∧
      env.bytesOk (env.artifactDownloadUri a) = true ∧
      env.copyOk (a ++ ".tar") = true ∧
      env.cmdStatusOk "tar" ["-xvf", a ++ ".tar"] = true ∧
      env.cmdStatusOk "rm" [a ++ ".tar"] = true) :
    (spawnedTasks env artifact_ids).length = artifact_ids.length ∧
    (∀ a ∈ artifact_ids,
      (artifactTask env a).trace =
        [Event.apiArtifactDownload a,
         Event.httpGet (env.artifactDownloadUri a),
         Event.fsCreateFile (a ++ ".tar"),
         Event.cmd "tar" ["-xvf", a ++ ".tar"],
         Event.cmd "rm" [a ++ ".tar"]]) ∧
    awaitedHandles (spawnedTasks env artifact_ids) = artifact_ids.length ∧
    joinTasks (spawnedTasks env artifact_ids) = Except.ok () := by
  have hok : ∀ t ∈ spawnedTasks env artifact_ids,
      t.result = Except.ok () := by
    intro t htm
    obtain ⟨a, _, rfl⟩ := List.mem_map.mp htm
    obtain ⟨h1, h2, h3, h4, h5, h6⟩ := h a
    exact (artifactTask_trace_ok env a h1 h2 h3 h4 h5 h6).2
  have hj := joinTasks_all_ok _ hok
  refine ⟨by simp [spawnedTasks], ?_, ?_, hj.1⟩
  · intro a _
    obtain ⟨h1, h2, h3, h4, h5, h6⟩ := h a
    exact (artifactTask_trace_ok env a h1 h2 h3 h4 h5 h6).1
  · rw [hj.2]; simp [spawnedTasks]

theorem C3_one_task_per_artifact_witness :
    (okEnv.getOk (okEnv.artifactDownloadUri "a1") = true) ∧
    (spawnedTasks okEnv ["a1", "a2"]).length = 2 ∧
    awaitedHandles (spawnedTasks okEnv ["a1", "a2"]) = 2 ∧
    joinTasks (spawnedTasks okEnv ["a1", "a2"]) = Except.ok () := by
  have h := C3_one_task_per_artifact_steps_in_order okEnv ["a1", "a2"]
    (fun a => ⟨rfl, rfl, rfl, rfl, rfl, rfl⟩)
  exact ⟨rfl, h.1, h.2.2.1, h.2.2.2⟩

/-- C4: one failed download task aborts the whole wait — the await loop
stops at the first failed handle with the panic message of the source's
`.expect` — while the run's trace stays exactly the parent events plus
what the tasks themselves did: the wait adds no events, so nothing a
completed task extracted is removed or rolled back. -/
theorem C4_first_failure_aborts_wait_no_rollback (env : Env)
    (pre post : List (M Unit)) (t : M Unit) (e : String)
    (hpre : ∀ x ∈ pre, x.result = Except.ok ())
    (ht : t.result = Except.error e) :
    joinTasks (pre ++ t :: post) =
      Except.error "Could not upload ouput artifact" ∧
    awaitedHandles (pre ++ t :: post) = pre.length + 1 ∧
    (∀ jid, (env.jobExecutionGet jid).status = JobExecutionStatus.Completed →
      env.createDirOk (env.jobExecutionGet jid).id = true →
      env.setCurrentDirOk (env.jobExecutionGet jid).id = true →
      (download_output_artifacts env jid).trace =
        [Event.apiJobExecutionGet jid,
         Event.fsCreateDirAll (env.jobExecutionGet jid).id,
         Event.fsSetCurrentDir (env.jobExecutionGet jid).id,
         Event.apiArtifactList (env.jobExecutionGet jid).id] ++
        ((spawnedTasks env
            (env.artifactList (env.jobExecutionGet jid).id)).map
          M.trace).flatten) := by
  obtain ⟨hj, ha⟩ := joinTasks_first_failure pre post t e hpre ht
  exact ⟨hj, ha, fun jid hc hdir hcd =>
    (download_completed_shape env jid hc hdir hcd).1⟩

theorem C4_first_failure_witness :
    (artifactTask failGetEnv "a1").result =
      Except.error "called unwrap on an Err value from reqwest get" ∧
    joinTasks ([] ++ artifactTask failGetEnv "a1" :: []) =
      Except.error "Could not upload ouput artifact" ∧
    awaitedHandles ([] ++ artifactTask failGetEnv "a1" :: []) = 1 := by
  have h := C4_first_failure_aborts_wait_no_rollback failGetEnv [] []
    (artifactTask failGetEnv "a1")
    "called unwrap on an Err value from reqwest get" (by simp) rfl
  exact ⟨rfl, h.1, h.2.1⟩

/-- C5: the action flags are mutually exclusive — `main`'s `if`/`else if`
chain selects at most one action for any parsed argument set, so no
combination of flags runs two actions in one invocation. -/
theorem C5_actions_mutually_exclusive (args : Arguments) :
    (selectedActions args).length ≤ 1 ∧
    ∀ a ∈ selectedActions args, ∀ b ∈ selectedActions args, a = b := by
  unfold selectedActions
  refine ⟨?_, ?_⟩ <;> (repeat' split) <;> simp

/-- C6: when the DICE marker check on the current directory fails,
`create_runtime` only prints a message: no command is spawned, no upload
URI is requested, no PUT is issued and the activate endpoint is never
called. -/
theorem C6_marker_check_gates_create_runtime (env : Env) (name pid : String)
    (h : is_directory_dice_runtime env "." = false) :
    (create_runtime env name pid).trace =
      [Event.printLine "NOT IN A DICE RUNTIME"] ∧
    (create_runtime env name pid).result = Except.ok () := by
  simp [create_runtime, h, emit]

theorem C6_marker_check_witness :
    is_directory_dice_runtime noDiceEnv "." = false ∧
    (create_runtime noDiceEnv "rt" "p1").trace =
      [Event.printLine "NOT IN A DICE RUNTIME"] := by
  exact ⟨by decide,
    (C6_marker_check_gates_create_runtime noDiceEnv "rt" "p1" (by decide)).1⟩

/-- C7: transfers are never retried, on every oracle including failing
ones: a `create_runtime` or `create_input_artifact` run issues at most
one HTTP PUT, a download task issues at most one HTTP GET, and a whole
download run issues at most one GET per listed artifact. -/
theorem C7_transfers_never_retried (env : Env) (name pid f a jid : String) :
    (create_runtime env name pid).trace.countP isPutEvent ≤ 1 ∧
    (create_input_artifact env pid f).trace.countP isPutEvent ≤ 1 ∧
    (artifactTask env a).trace.countP isGetEvent ≤ 1 ∧
    (download_output_artifacts env jid).trace.countP isGetEvent ≤
      (env.artifactList (env.jobExecutionGet jid).id).length :=
  ⟨create_runtime_put_le_one env name pid,
   create_input_artifact_put_le_one env pid f,
   artifactTask_get_le_one env a,
   download_get_le_artifacts env jid⟩

/-- C8: when the status check passes, `download_output_artifacts` creates
a directory named after the job execution id and changes the working
directory into it before the artifact listing and any download, and the
whole run changes directory exactly once — it is never restored. -/
theorem C8_chdir_into_job_dir_never_restored (env : Env) (jid : String)
    (hc : (env.jobExecutionGet jid).status = JobExecutionStatus.Completed)
    (hdir : env.createDirOk (env.jobExecutionGet jid).id = true)
    (hcd : env.setCurrentDirOk (env.jobExecutionGet jid).id = true) :
    (download_output_artifacts env jid).trace =
      [Event.apiJobExecutionGet jid,
       Event.fsCreateDirAll (env.jobExecutionGet jid).id,
       Event.fsSetCurrentDir (env.jobExecutionGet jid).id,
       Event.apiArtifactList (env.jobExecutionGet jid).id] ++
      ((spawnedTasks env
          (env.artifactList (env.jobExecutionGet jid).id)).map
        M.trace).flatten ∧
    (download_output_artifacts env jid).trace.countP
      isSetCurrentDirEvent = 1 := by
  obtain ⟨ht, _⟩ := download_completed_shape env jid hc hdir hcd
  refine ⟨ht, ?_⟩
  rw [ht, List.countP_append]
  have hz : (((spawnedTasks env
      (env.artifactList (env.jobExecutionGet jid).id)).map
        M.trace).flatten.countP isSetCurrentDirEvent) = 0 := by
    apply countP_flatten_zero
    intro t htm
    obtain ⟨x, hxm, rfl⟩ := List.mem_map.mp htm
    obtain ⟨a, _, rfl⟩ := List.mem_map.mp hxm
    exact artifactTask_no_chdir env a
  rw [hz]
  simp [isSetCurrentDirEvent]

theorem C8_chdir_witness :
    (okEnv.jobExecutionGet "je1").status = JobExecutionStatus.Completed ∧
    (download_output_artifacts okEnv "je1").trace.countP
      isSetCurrentDirEvent = 1 := by
  exact ⟨rfl,
    (C8_chdir_into_job_dir_never_restored okEnv "je1" rfl rfl rfl).2⟩

/-- C9: `is_directory_dice_runtime` is a substring test: it returns `true`
exactly when the directory listing succeeds and some listed path contains
`".dice"` as a contiguous substring, and a failed listing yields `false`
rather than an error. -/
theorem C9_marker_check_is_substring_test (env : Env) (root : String) :
    is_directory_dice_runtime env root = true ↔
      ∃ files, env.dirEntries root = some files ∧
        ∃ p ∈ files, (".dice").toList <:+: p.toList := by
  unfold is_directory_dice_runtime list_files_in_dir
  cases hd : env.dirEntries root with
  | none => simp
  | some files =>
    dsimp only
    rw [foldl_flag_eq_any]
    simp [List.any_eq_true, rustContains, containsSubList_iff_infix]

/-- C10: `list_notifications` is accepted but is a no-op — with it as the
only flag set, `main` runs no action branch, makes no remote call and
prints nothing. -/
theorem C10_list_notifications_is_noop (env : Env) (args : Arguments)
    (h1 : args.create_runtime = false)
    (h2 : args.create_input_artifact = false)
    (h3 : args.create_project = false)
    (h4 : args.create_job = false)
    (h5 : args.create_job_execution = false)
    (h6 : args.get_job_execution = false)
    (h7 : args.download_output_artifacts = false)
    (hl : args.list_notifications = true) :
    (mainRun env args).trace = [] ∧
    (mainRun env args).result = Except.ok () ∧
    selectedActions args = [] := by
  simp [mainRun, selectedActions, h1, h2, h3, h4, h5, h6, h7, M.pure]

theorem C10_list_notifications_witness :
    notifOnlyArgs.list_notifications = true ∧
    (mainRun okEnv notifOnlyArgs).trace = [] ∧
    (mainRun okEnv notifOnlyArgs).result = Except.ok () := by
  refine ⟨rfl, ?_, ?_⟩
  · exact (C10_list_notifications_is_noop okEnv notifOnlyArgs rfl rfl rfl rfl
      rfl rfl rfl rfl).1
  · exact (C10_list_notifications_is_noop okEnv notifOnlyArgs rfl rfl rfl rfl
      rfl rfl rfl rfl).2.1

end DiceCli
